import Mathlib

/-!
Shallow embedding of the ChronoFlow-AI mobile client (src/App.js and the
TasksScreen in src/unnamed/part_000) and proofs of the specification claims.

The screen logic is React state-hook code; we embed it as pure state
transformers.  Each awaited remote call (TaskService.getTasks / updateTask /
deleteTask, AuthService.getToken) is passed in as an `Except` result, the
standard shallow embedding of a call that either returns or throws.  Every
operation also returns the list of remote calls it issued, so that claims
about which requests are dispatched can be stated.
-/

namespace ChronoFlow

/-- A task as consumed by the screen (fields read in src/unnamed/part_000:
id, title, description, due_date, priority, category, is_completed).
Optional fields model JS properties that may be absent (undefined). -/
structure Task where
  id : Nat
  title : String
  description : Option String
  due_date : Option String
  priority : Option Nat
  category : Option String
  is_completed : Bool
deriving Repr, DecidableEq

/-- JS `s.toLowerCase()`: each character mapped to its lowercase form. -/
def jsToLowerCase (s : String) : String :=
  ⟨s.toList.map Char.toLower⟩

/-- JS `s.includes(sub)`: `sub` occurs contiguously inside `s`. -/
def strIncludes (s sub : String) : Bool :=
  decide (sub.toList <:+: s.toList)

/-- The search predicate from `filterTasks` (src/unnamed/part_000 lines 47-52):
`task.title.toLowerCase().includes(q.toLowerCase()) ||
 task.description?.toLowerCase().includes(q.toLowerCase())`.
The optional chain on an absent description evaluates to undefined, which is
falsy, modelled by `getD false`. -/
def matchesQuery (searchQuery : String) (task : Task) : Bool :=
  strIncludes (jsToLowerCase task.title) (jsToLowerCase searchQuery) ||
  ((task.description.map fun d =>
    strIncludes (jsToLowerCase d) (jsToLowerCase searchQuery)).getD false)

/-- `filterTasks` (src/unnamed/part_000 lines 44-56): starts from the full
set, applies the search filter only when `searchQuery` is truthy (a JS
string is falsy exactly when empty). -/
def filterTasks (searchQuery : String) (tasks : List Task) : List Task :=
  if searchQuery = "" then tasks
  else tasks.filter (matchesQuery searchQuery)

/-- The predicate as the spec words it: the title, or the description when
present, contains the query case-insensitively as a substring. -/
def specMatches (q : String) (t : Task) : Prop :=
  (jsToLowerCase q).toList <:+: (jsToLowerCase t.title).toList ∨
  ∃ d, t.description = some d ∧
    (jsToLowerCase q).toList <:+: (jsToLowerCase d).toList

theorem matchesQuery_iff_specMatches (q : String) (t : Task) :
    matchesQuery q t = true ↔ specMatches q t := by
  unfold matchesQuery specMatches strIncludes
  cases h : t.description with
  | none => simp [h]
  | some d => simp [h]

/-- Remote calls the screen and the app shell can issue. -/
inductive Call where
  | getTasksCall (filter : String)
  | updateTaskCall (id : Nat) (is_completed : Bool)
  | deleteTaskCall (id : Nat)
  | getTokenCall
deriving Repr, DecidableEq

/-- The React state of TasksScreen that the claims concern: the local task
set, the derived search view, the loading flag, the search query, the active
filter, and the alerts raised so far (title, message pairs). -/
structure ScreenState where
  tasks : List Task
  filteredTasks : List Task
  refreshing : Bool
  searchQuery : String
  filter : String
  alerts : List (String × String)
deriving Repr, DecidableEq

def loadErrorAlert : String × String := ("Ошибка", "Не удалось загрузить задачи")

def updateErrorAlert : String × String := ("Ошибка", "Не удалось обновить задачу")

def deleteErrorAlert : String × String := ("Ошибка", "Не удалось удалить задачу")

/-- `loadTasks` (src/unnamed/part_000 lines 32-42): sets the refreshing flag,
awaits `TaskService.getTasks(filter)`; on success stores the fetched tasks
(the effect on [searchQuery, tasks] then recomputes the derived view); on
failure raises an alert and leaves the set alone; the `finally` clause clears
the refreshing flag on both paths.  Returns the new state and the issued
calls. -/
def loadTasks (s : ScreenState) (result : Except Unit (List Task)) :
    ScreenState × List Call :=
  let s1 := { s with refreshing := true }
  let s2 := match result with
    | .ok fetched =>
      let sA := { s1 with tasks := fetched }
      { sA with filteredTasks := filterTasks sA.searchQuery sA.tasks }
    | .error _ => { s1 with alerts := s1.alerts ++ [loadErrorAlert] }
  ({ s2 with refreshing := false }, [.getTasksCall s.filter])

/-- `toggleTaskCompletion` (src/unnamed/part_000 lines 58-65): awaits
`TaskService.updateTask(taskId, { is_completed: !isCompleted })`; on success
reloads via `loadTasks()`; on failure raises an alert.  `isCompleted` is an
argument supplied by the caller (the rendered item), not looked up in the
local set. -/
def toggleTaskCompletion (s : ScreenState) (taskId : Nat) (isCompleted : Bool)
    (updateResult : Except Unit Unit) (reloadResult : Except Unit (List Task)) :
    ScreenState × List Call :=
  match updateResult with
  | .ok _ =>
    let p := loadTasks s reloadResult
    (p.1, .updateTaskCall taskId (!isCompleted) :: p.2)
  | .error _ =>
    ({ s with alerts := s.alerts ++ [updateErrorAlert] }, [.updateTaskCall taskId (!isCompleted)])

/-- `deleteTask` (src/unnamed/part_000 lines 67-87): shows a confirmation
alert with a cancel button and a destructive confirm button; only the confirm
handler awaits `TaskService.deleteTask(taskId)` and on success reloads, on
failure raises an alert.  `confirmed` models which button the user pressed. -/
def deleteTask (s : ScreenState) (taskId : Nat) (confirmed : Bool)
    (deleteResult : Except Unit Unit) (reloadResult : Except Unit (List Task)) :
    ScreenState × List Call :=
  if confirmed then
    match deleteResult with
    | .ok _ =>
      let p := loadTasks s reloadResult
      (p.1, .deleteTaskCall taskId :: p.2)
    | .error _ =>
      ({ s with alerts := s.alerts ++ [deleteErrorAlert] }, [.deleteTaskCall taskId])
  else (s, [])

/-- Modelled from the spec: the remote TaskService (src/services/TaskService,
imported by the screen but not among the provided sources).  Per §6,
`updateTask(id, {is_completed: b})` sets that field on the task with that id;
with no concurrent external mutation the next `getTasks(filter)` returns the
previously fetched set with exactly that task updated. -/
def serverAfterUpdate (tasks : List Task) (taskId : Nat) (b : Bool) : List Task :=
  tasks.map fun t => if t.id = taskId then { t with is_completed := b } else t

/-- `formatDate` (src/unnamed/part_000 lines 134-142): `new Date(dateString)`
then `toLocaleDateString('ru-RU', {day, month: short, hour, minute})`.
JS semantics: `new Date(undefined)` is an Invalid Date, and locale rendering
of an Invalid Date returns the string "Invalid Date".  Host `Date` parsing of
a present string (none when unparsable) and the ru-RU locale rendering of a
valid timestamp are Intl behaviour external to the repo, so they are taken as
parameters. -/
def formatDate (jsParse : String → Option Int) (ruLocaleRender : Int → String)
    (dateString : Option String) : String :=
  match dateString with
  | none => "Invalid Date"
  | some str =>
    match jsParse str with
    | none => "Invalid Date"
    | some t => ruLocaleRender t

/-- The date text of `renderTaskItem` (src/unnamed/part_000 lines 107-110):
`formatDate(item.due_date)` with no guard on an absent due date. -/
def renderTaskDateText (jsParse : String → Option Int) (ruLocaleRender : Int → String)
    (item : Task) : String :=
  formatDate jsParse ruLocaleRender item.due_date

/-- A task with no due date (the data model allows absence: unscheduled). -/
def unscheduledTask : Task :=
  { id := 1, title := "Buy milk", description := none, due_date := none,
    priority := none, category := none, is_completed := false }

/-- The App shell state (src/App.js): the splash-screen flag and the auth
token (`null` initially, JS `== null` also covers undefined). -/
structure AppState where
  isLoading : Bool
  userToken : Option String
deriving Repr, DecidableEq

def initialAppState : AppState := { isLoading := true, userToken := none }

/-- `bootstrapAsync` (src/App.js lines 70-88): runs once from the mount
effect; awaits `AuthService.getToken()`, stores the token on success, only
logs on failure, and clears the loading flag in `finally`.  Returns the new
state and the single issued call. -/
def bootstrapAsync (s : AppState) (tokenResult : Except Unit (Option String)) :
    AppState × List Call :=
  let s1 := match tokenResult with
    | .ok token => { s with userToken := token }
    | .error _ => s
  ({ s1 with isLoading := false }, [.getTokenCall])

/-- The three roots App can render. -/
inductive Root where
  | splash
  | login
  | main
deriving Repr, DecidableEq

/-- The root App renders (src/App.js lines 89-111): splash while loading,
then Login when `userToken == null`, else the main tab navigator. -/
def renderRoot (s : AppState) : Root :=
  if s.isLoading then .splash
  else if s.userToken = none then .login
  else .main

def emptyScreenState : ScreenState :=
  { tasks := [], filteredTasks := [], refreshing := false, searchQuery := "",
    filter := "all", alerts := [] }

def callBobTask : Task :=
  { id := 1, title := "Call Bob", description := none, due_date := none,
    priority := none, category := none, is_completed := false }

def emailBobTask : Task :=
  { id := 2, title := "Email Bob", description := none, due_date := none,
    priority := none, category := none, is_completed := false }

def milkTask : Task :=
  { id := 1, title := "Buy milk", description := none, due_date := none,
    priority := none, category := none, is_completed := false }

def milkState : ScreenState :=
  { tasks := [milkTask], filteredTasks := [milkTask], refreshing := false,
    searchQuery := "", filter := "all", alerts := [] }

/-- C1: the search derivation with the empty query returns exactly the task
set, and with a non-empty query returns exactly those tasks of the set whose
title, or description when present, contains the query case-insensitively as
a substring. -/
theorem filterTasks_search_spec (T : List Task) (q : String) (t : Task)
    (hq : q ≠ "") :
    filterTasks "" T = T ∧
    (t ∈ filterTasks q T ↔ t ∈ T ∧ specMatches q t) := by
  constructor
  · simp [filterTasks]
  · rw [filterTasks, if_neg hq, List.mem_filter, matchesQuery_iff_specMatches]

/-- C1 witness: the spec scenario — search "bob" over the Call Bob and
Email Bob tasks, at the concrete task Call Bob. -/
theorem filterTasks_search_spec_witness :
    "bob" ≠ "" ∧
    (filterTasks "" [callBobTask, emailBobTask] = [callBobTask, emailBobTask] ∧
     (callBobTask ∈ filterTasks "bob" [callBobTask, emailBobTask] ↔
      callBobTask ∈ [callBobTask, emailBobTask] ∧ specMatches "bob" callBobTask)) :=
  ⟨by decide, filterTasks_search_spec [callBobTask, emailBobTask] "bob" callBobTask (by decide)⟩

/-- C7: the search derivation is idempotent — applying it a second time with
the same query to its own result returns the same result. -/
theorem filterTasks_idempotent (T : List Task) (q : String) :
    filterTasks q (filterTasks q T) = filterTasks q T := by
  unfold filterTasks
  by_cases hq : q = ""
  · simp [hq]
  · simp only [if_neg hq]
    exact List.filter_eq_self.mpr fun a ha => (List.mem_filter.mp ha).2

/-- C9: the search derivation returns a sublist of the underlying task set —
same relative order, no reordering, no duplication. -/
theorem filterTasks_sublist (T : List Task) (q : String) :
    (filterTasks q T).Sublist T := by
  unfold filterTasks
  by_cases hq : q = ""
  · simp [hq]
  · simp only [if_neg hq]
    exact List.filter_sublist T

/-- C2: a failing load leaves the local task set and the derived search view
unchanged and raises an error alert, and the refreshing flag is false after
every load, success or failure. -/
theorem loadTasks_failure (s : ScreenState) (r : Except Unit (List Task)) :
    (loadTasks s (.error ())).1.tasks = s.tasks ∧
    (loadTasks s (.error ())).1.filteredTasks = s.filteredTasks ∧
    (loadTasks s (.error ())).1.alerts = s.alerts ++ [loadErrorAlert] ∧
    (loadTasks s r).1.refreshing = false := by
  refine ⟨rfl, rfl, rfl, ?_⟩
  cases r <;> rfl

/-- C3 counterexample: with an empty local task set, toggling id 1 does not
raise a usage error — it still issues the remote update request. -/
theorem toggle_missing_id_counterexample :
    emptyScreenState.tasks = [] ∧
    Call.updateTaskCall 1 true ∈
      (toggleTaskCompletion emptyScreenState 1 false (.ok ()) (.ok [])).2 := by
  exact ⟨rfl, by decide⟩

/-- C3 (amended): toggleTaskCompletion never looks the id up in the local set
and raises no usage error; for every state and id, absent ones included, its
first issued call is the remote update flipping the caller-supplied flag. -/
theorem toggle_always_issues_update (s : ScreenState) (taskId : Nat)
    (isCompleted : Bool) (u : Except Unit Unit) (r : Except Unit (List Task)) :
    (toggleTaskCompletion s taskId isCompleted u r).2.head? =
      some (.updateTaskCall taskId (!isCompleted)) := by
  cases u <;> rfl

/-- C4: for a task present in the local set (its current flag supplied by the
rendered item), the toggle sends an update whose is_completed is the negation
of the current value; on success it issues the reload; after a reload that
reflects just that update, every task with that id carries the negated flag;
on failure the local set and view are unchanged and an error alert is
raised. -/
theorem toggle_roundtrip (s : ScreenState) (t : Task)
    (u : Except Unit Unit) (r : Except Unit (List Task)) (ht : t ∈ s.tasks) :
    (toggleTaskCompletion s t.id t.is_completed u r).2.head? =
      some (.updateTaskCall t.id (!t.is_completed)) ∧
    Call.getTasksCall s.filter ∈
      (toggleTaskCompletion s t.id t.is_completed (.ok ()) r).2 ∧
    (∀ t' ∈ (toggleTaskCompletion s t.id t.is_completed (.ok ())
        (.ok (serverAfterUpdate s.tasks t.id (!t.is_completed)))).1.tasks,
      t'.id = t.id → t'.is_completed = !t.is_completed) ∧
    (toggleTaskCompletion s t.id t.is_completed (.error ()) r).1.tasks = s.tasks ∧
    (toggleTaskCompletion s t.id t.is_completed (.error ()) r).1.filteredTasks =
      s.filteredTasks ∧
    (toggleTaskCompletion s t.id t.is_completed (.error ()) r).1.alerts =
      s.alerts ++ [updateErrorAlert] := by
  refine ⟨by cases u <;> rfl, ?_, ?_, rfl, rfl, rfl⟩
  · simp [toggleTaskCompletion, loadTasks]
  · intro t' ht' hid
    have ht2 : t' ∈ serverAfterUpdate s.tasks t.id (!t.is_completed) := ht'
    rcases List.mem_map.mp ht2 with ⟨x, hx, hfx⟩
    by_cases hxid : x.id = t.id
    · rw [if_pos hxid] at hfx
      rw [← hfx]
    · rw [if_neg hxid] at hfx
      rw [← hfx] at hid
      exact absurd hid hxid

/-- C4 witness: the spec scenario — a single Buy milk task with id 1 and
is_completed false, toggled with its current flag. -/
theorem toggle_roundtrip_witness :
    milkTask ∈ milkState.tasks ∧
    ((toggleTaskCompletion milkState milkTask.id milkTask.is_completed
        (Except.ok ()) (Except.ok [])).2.head? =
      some (.updateTaskCall milkTask.id (!milkTask.is_completed)) ∧
    Call.getTasksCall milkState.filter ∈
      (toggleTaskCompletion milkState milkTask.id milkTask.is_completed
        (Except.ok ()) (Except.ok [])).2 ∧
    (∀ t' ∈ (toggleTaskCompletion milkState milkTask.id milkTask.is_completed
        (Except.ok ())
        (.ok (serverAfterUpdate milkState.tasks milkTask.id
          (!milkTask.is_completed)))).1.tasks,
      t'.id = milkTask.id → t'.is_completed = !milkTask.is_completed) ∧
    (toggleTaskCompletion milkState milkTask.id milkTask.is_completed
      (Except.error ()) (Except.ok [])).1.tasks = milkState.tasks ∧
    (toggleTaskCompletion milkState milkTask.id milkTask.is_completed
      (Except.error ()) (Except.ok [])).1.filteredTasks = milkState.filteredTasks ∧
    (toggleTaskCompletion milkState milkTask.id milkTask.is_completed
      (Except.error ()) (Except.ok [])).1.alerts =
      milkState.alerts ++ [updateErrorAlert]) :=
  ⟨by decide, toggle_roundtrip milkState milkTask (Except.ok ()) (Except.ok []) (by decide)⟩

/-- C5: delete with a cancel response issues no request and changes no state;
on an affirmative response the delete request is issued first and on success
the reload is triggered (the resulting state is exactly the reloaded one); on
failure an error alert is raised, the set and view are unchanged, and no
reload is issued. -/
theorem deleteTask_confirmation (s : ScreenState) (taskId : Nat)
    (d : Except Unit Unit) (r : Except Unit (List Task)) :
    deleteTask s taskId false d r = (s, []) ∧
    (deleteTask s taskId true (.ok ()) r).2.head? =
      some (.deleteTaskCall taskId) ∧
    Call.getTasksCall s.filter ∈ (deleteTask s taskId true (.ok ()) r).2 ∧
    (deleteTask s taskId true (.ok ()) r).1 = (loadTasks s r).1 ∧
    (deleteTask s taskId true (.error ()) r).1.tasks = s.tasks ∧
    (deleteTask s taskId true (.error ()) r).1.filteredTasks = s.filteredTasks ∧
    (deleteTask s taskId true (.error ()) r).1.alerts =
      s.alerts ++ [deleteErrorAlert] ∧
    (deleteTask s taskId true (.error ()) r).2 = [.deleteTaskCall taskId] := by
  refine ⟨rfl, rfl, ?_, rfl, rfl, rfl, rfl, rfl⟩
  simp [deleteTask, loadTasks]

/-- C6 (code-bug evidence): for a task whose due_date is absent, the screen
renders the string "Invalid Date" — JS new Date(undefined) is an Invalid
Date and its locale rendering is "Invalid Date" — not an explicit
unscheduled state, whatever the host date parser and locale renderer do. -/
theorem formatDate_missing_due_date (jsParse : String → Option Int)
    (ruLocaleRender : Int → String) :
    formatDate jsParse ruLocaleRender none = "Invalid Date" ∧
    renderTaskDateText jsParse ruLocaleRender unscheduledTask = "Invalid Date" :=
  ⟨rfl, rfl⟩

/-- C8: the bootstrap issues exactly one getToken call, and the navigation
root follows its result — an absent token yields the Login root, a present
token the Main root. -/
theorem auth_bootstrap_root (res : Except Unit (Option String)) (tok : String) :
    (bootstrapAsync initialAppState res).2 = [.getTokenCall] ∧
    renderRoot (bootstrapAsync initialAppState (.ok none)).1 = .login ∧
    renderRoot (bootstrapAsync initialAppState (.ok (some tok))).1 = .main := by
  refine ⟨?_, rfl, rfl⟩
  cases res <;> rfl

/-- C10: when getToken throws, the bootstrap still clears the loading flag,
the token stays null, and the Login root is presented. -/
theorem bootstrap_failure_login :
    (bootstrapAsync initialAppState (.error ())).1.isLoading = false ∧
    (bootstrapAsync initialAppState (.error ())).1.userToken = none ∧
    renderRoot (bootstrapAsync initialAppState (.error ())).1 = .login :=
  ⟨rfl, rfl, rfl⟩

end ChronoFlow
